import Mathlib

/-!
Verification development for the gentoo renderer's frame-lifecycle core.

The definitions below are a shallow embedding of the Rust source:
the swapchain synchronization state machine (src/vulkan/swapchain.rs),
the renderer's begin/end frame protocol (src/vulkan/renderer.rs),
the point-light system's UBO update (src/vulkan/systems/point_light_system.rs),
the pipeline-cache construction (src/vulkan/pipeline/cache.rs) and the
game-object id assignment (src/game_object.rs).

External effects (Vulkan calls, the file system) are modelled by passing
their outcomes in as explicit parameters and, where a claim needs the
sequence of issued GPU commands, by returning a trace of `GpuOp` values.
Rust panics (assert!, unwrap, out-of-bounds indexing) are modelled by an
`Option` layer where `none` is a panic/abort.  Machine integers are
modelled as `Nat` with explicit reduction modulo 2 ^ w where overflow can
occur (the `u8` entity-id counter).
-/

namespace Gentoo

/-- Source constant MAX_FRAMES_IN_FLIGHT from src/vulkan/swapchain.rs. -/
def MAX_FRAMES_IN_FLIGHT : Nat := 2

/-- Source constant MAX_LIGHTS from src/frame_info.rs. -/
def MAX_LIGHTS : Nat := 10

/-- Largest u64 value: the timeout passed to the blocking waits. -/
def U64_MAX : Nat := 2 ^ 64 - 1

/-- Vulkan result codes relevant to the embedded code paths. -/
inductive VkResult where
  | errorOutOfDateKhr
  | errorDeviceLost
  | errorOutOfHostMemory
deriving DecidableEq

/-- The crate's render error enum (src/vulkan/mod.rs): a wrapped Vulkan
result code or the dedicated swapchain-format-mismatch error. -/
inductive GentooRenderError where
  | vulkanError (code : VkResult)
  | compareSwapFormatsError
deriving DecidableEq

/-- GPU commands issued by the embedded code, recorded as a trace where a
claim is about which calls are made and in which order. -/
inductive GpuOp where
  | waitForFences (fences : List Nat) (waitAll : Bool) (timeout : Nat)
  | acquireNextImageKhr (timeout : Nat) (semaphore : Nat)
  | deviceWaitIdle
  | createSwapchainKhr
deriving DecidableEq

/-- The Swapchain state relevant to the embedded operations
(src/vulkan/swapchain.rs).  Handles (fences, semaphores, framebuffers) are
modelled as `Nat`, with 0 playing the role of `vk::Fence::null()`. -/
structure Swapchain where
  swapchain_khr : Option Nat
  swapchain_image_format : Nat
  swapchain_depth_format : Nat
  swapchain_framebuffers : List Nat
  image_available_semaphores : List Nat
  render_finished_semaphores : List Nat
  in_flight_fences : List Nat
  images_in_flight : List Nat
  current_frame : Nat
deriving DecidableEq

/-- Swapchain::compare_swap_formats: Ok iff both the depth format and the
image format agree, else the dedicated CompareSwapFormatsError. -/
def Swapchain.compare_swap_formats (s other : Swapchain) :
    Except GentooRenderError Unit :=
  if other.swapchain_depth_format = s.swapchain_depth_format
      ∧ other.swapchain_image_format = s.swapchain_image_format then
    Except.ok ()
  else
    Except.error GentooRenderError.compareSwapFormatsError

/-- Swapchain::acquire_next_image.  The source first calls
wait_for_fences on the single in-flight fence of the current frame slot,
passing `false` for the wait-all flag and `u64::MAX` as the timeout, and
propagates a wait failure; then it unwraps `swapchain_khr` (a panic when
`None`, modelled as the outer `none`) and calls acquire_next_image_khr
with timeout `u64::MAX`, signaling the current frame slot's
image-available semaphore, passing the raw acquisition result through.
The outcomes of the two external calls are the parameters `wait_res` and
`acquire_res`; the returned list is the trace of issued GPU calls. -/
def Swapchain.acquire_next_image (s : Swapchain)
    (wait_res : Except VkResult Unit)
    (acquire_res : Except VkResult (Nat × Bool)) :
    Option (List GpuOp × Except GentooRenderError (Except VkResult (Nat × Bool))) :=
  let fence := s.in_flight_fences.getD s.current_frame 0
  let waitOp := GpuOp.waitForFences [fence] false U64_MAX
  match wait_res with
  | Except.error e => some ([waitOp], Except.error (GentooRenderError.vulkanError e))
  | Except.ok _ =>
    match s.swapchain_khr with
    | none => none
    | some _ =>
      let sem := s.image_available_semaphores.getD s.current_frame 0
      some ([waitOp, GpuOp.acquireNextImageKhr U64_MAX sem], Except.ok acquire_res)

/-- The images_in_flight[image_index] = in_flight_fences[current_frame]
assignment from Swapchain::submit_command_buffers (swapchain.rs line
166). -/
def Swapchain.record_image_fence (s : Swapchain) (image_index : Nat) : Swapchain :=
  { s with images_in_flight :=
      s.images_in_flight.set image_index (s.in_flight_fences.getD s.current_frame 0) }

/-- The current_frame advance from Swapchain::submit_command_buffers
(swapchain.rs line 196). -/
def Swapchain.advance_frame (s : Swapchain) : Swapchain :=
  { s with current_frame := (s.current_frame + 1) % MAX_FRAMES_IN_FLIGHT }

/-- The straight-line tail of Swapchain::submit_command_buffers after
the optional per-image fence wait: record the current frame's fence into
images_in_flight, reset the current fence and submit (an error
propagates before the frame-slot advance), unwrap `swapchain_khr` (panic
when `None`; recording the fence does not touch that field), advance
current_frame modulo MAX_FRAMES_IN_FLIGHT, then present, whose error
propagates only after the advance. -/
def Swapchain.submit_after_wait (s : Swapchain) (image_index : Nat)
    (reset_res submit_res : Except VkResult Unit)
    (present_res : Except VkResult Bool) :
    Option (Swapchain × Except GentooRenderError Bool) :=
  match reset_res with
  | Except.error e => some (s.record_image_fence image_index,
      Except.error (GentooRenderError.vulkanError e))
  | Except.ok _ =>
    match submit_res with
    | Except.error e => some (s.record_image_fence image_index,
        Except.error (GentooRenderError.vulkanError e))
    | Except.ok _ =>
      match s.swapchain_khr with
      | none => none
      | some _ =>
        match present_res with
        | Except.error e => some ((s.record_image_fence image_index).advance_frame,
            Except.error (GentooRenderError.vulkanError e))
        | Except.ok subopt => some ((s.record_image_fence image_index).advance_frame,
            Except.ok subopt)

/-- Swapchain::submit_command_buffers.  In source order: wait on the
per-image fence when it is non-null (an error propagates before any
state change); then the recorded-fence/reset/submit/advance/present tail
submit_after_wait.  External outcomes are parameters. -/
def Swapchain.submit_command_buffers (s : Swapchain) (image_index : Nat)
    (wait_res reset_res submit_res : Except VkResult Unit)
    (present_res : Except VkResult Bool) :
    Option (Swapchain × Except GentooRenderError Bool) :=
  if s.images_in_flight.getD image_index 0 ≠ 0 then
    match wait_res with
    | Except.error e => some (s, Except.error (GentooRenderError.vulkanError e))
    | Except.ok _ => s.submit_after_wait image_index reset_res submit_res present_res
  else
    s.submit_after_wait image_index reset_res submit_res present_res

/-- A window extent (ash::vk::Extent2D, u32 fields). -/
structure Extent2D where
  width : Nat
  height : Nat
deriving DecidableEq

/-- The Renderer state (src/vulkan/renderer.rs). -/
structure Renderer where
  swapchain : Swapchain
  command_buffers : List Nat
  current_image_index : Nat
  current_frame_index : Nat
  is_frame_started : Bool
deriving DecidableEq

/-- Renderer::new initialises both indices to 0 with no frame started. -/
def Renderer.mk_new (swapchain : Swapchain) (command_buffers : List Nat) : Renderer :=
  { swapchain, command_buffers,
    current_image_index := 0, current_frame_index := 0, is_frame_started := false }

/-- Renderer::get_frame_index asserts that a frame is in progress (panic
modelled as `none`) and returns the current frame-slot index. -/
def Renderer.get_frame_index (r : Renderer) : Option Nat :=
  if r.is_frame_started then some r.current_frame_index else none

/-- Renderer::get_image_index: the source body is the bare field read
`self.current_image_index` with no assertion and no other panic site, so
in the panic monad it is unconditionally `some`. -/
def Renderer.get_image_index (r : Renderer) : Option Nat :=
  some r.current_image_index

/-- Renderer::get_current_command_buffer asserts that a frame is in
progress, then indexes command_buffers by the current frame-slot index
(an out-of-bounds index is a panic, hence `List.get?`). -/
def Renderer.get_current_command_buffer (r : Renderer) : Option Nat :=
  if r.is_frame_started then r.command_buffers.get? r.current_frame_index else none

/-- Renderer::begin_swapchain_render_pass asserts that a frame is in
progress and that the argument equals the current command buffer, then
indexes swapchain_framebuffers by the current image index and records
the render-pass begin plus viewport/scissor commands (not traced). -/
def Renderer.begin_swapchain_render_pass (r : Renderer) (command_buffer : Nat) :
    Option Unit :=
  if ¬ r.is_frame_started then none
  else
    match r.get_current_command_buffer with
    | none => none
    | some cur =>
      if command_buffer ≠ cur then none
      else
        match r.swapchain.swapchain_framebuffers.get? r.current_image_index with
        | none => none
        | some _ => some ()

/-- Renderer::end_swapchain_render_pass asserts that a frame is in
progress and that the argument equals the current command buffer, then
records the render-pass end command. -/
def Renderer.end_swapchain_render_pass (r : Renderer) (command_buffer : Nat) :
    Option Unit :=
  if ¬ r.is_frame_started then none
  else
    match r.get_current_command_buffer with
    | none => none
    | some cur =>
      if command_buffer ≠ cur then none
      else some ()

/-- Renderer::recreate_swapchain.  When the extent has zero width or
height it returns Ok immediately, issuing no GPU call and touching no
state.  Otherwise it waits for device idle, takes the old
`swapchain_khr` handle out of the stored swapchain, builds a new
swapchain (outcome passed in as `new_swapchain_res`), validates format
compatibility via compare_swap_formats, and only then replaces the
stored swapchain.  The middle component of the result is the trace of
issued GPU calls. -/
def Renderer.recreate_swapchain (r : Renderer) (extent : Extent2D)
    (idle_res : Except VkResult Unit)
    (new_swapchain_res : Except GentooRenderError Swapchain) :
    Renderer × List GpuOp × Except GentooRenderError Unit :=
  if extent.width = 0 ∨ extent.height = 0 then
    (r, [], Except.ok ())
  else
    match idle_res with
    | Except.error e =>
      (r, [GpuOp.deviceWaitIdle], Except.error (GentooRenderError.vulkanError e))
    | Except.ok _ =>
      let r1 := { r with swapchain := { r.swapchain with swapchain_khr := none } }
      match new_swapchain_res with
      | Except.error e =>
        (r1, [GpuOp.deviceWaitIdle, GpuOp.createSwapchainKhr], Except.error e)
      | Except.ok newSc =>
        match r1.swapchain.compare_swap_formats newSc with
        | Except.error e =>
          (r1, [GpuOp.deviceWaitIdle, GpuOp.createSwapchainKhr], Except.error e)
        | Except.ok _ =>
          ({ r1 with swapchain := newSc },
            [GpuOp.deviceWaitIdle, GpuOp.createSwapchainKhr], Except.ok ())

/-- Renderer::begin_frame.  Asserts that no frame is started (panic as
`none`); calls Swapchain::acquire_next_image; on the out-of-date
acquisition error it recreates the swapchain and returns Ok(None); any
other acquisition error panics; on success it sets is_frame_started,
records the acquired image index, fetches the frame slot's command
buffer and begins recording into it (outcome `begin_cb_res`), returning
Ok(Some buffer). -/
def Renderer.begin_frame (r : Renderer) (extent : Extent2D)
    (wait_res : Except VkResult Unit)
    (acquire_res : Except VkResult (Nat × Bool))
    (idle_res : Except VkResult Unit)
    (new_swapchain_res : Except GentooRenderError Swapchain)
    (begin_cb_res : Except VkResult Unit) :
    Option (Renderer × Except GentooRenderError (Option Nat)) :=
  if r.is_frame_started then none
  else
    match r.swapchain.acquire_next_image wait_res acquire_res with
    | none => none
    | some (_, Except.error e) => some (r, Except.error e)
    | some (_, Except.ok (Except.error VkResult.errorOutOfDateKhr)) =>
      match (r.recreate_swapchain extent idle_res new_swapchain_res).2.2 with
      | Except.error e =>
        some ((r.recreate_swapchain extent idle_res new_swapchain_res).1, Except.error e)
      | Except.ok _ =>
        some ((r.recreate_swapchain extent idle_res new_swapchain_res).1, Except.ok none)
    | some (_, Except.ok (Except.error _)) => none
    | some (_, Except.ok (Except.ok (image_index, _))) =>
      match Renderer.get_current_command_buffer
          { r with is_frame_started := true, current_image_index := image_index } with
      | none => none
      | some cb =>
        match begin_cb_res with
        | Except.error e =>
          some ({ r with is_frame_started := true, current_image_index := image_index },
            Except.error (GentooRenderError.vulkanError e))
        | Except.ok _ =>
          some ({ r with is_frame_started := true, current_image_index := image_index },
            Except.ok (some cb))

/-- Renderer::end_frame.  Asserts that a frame is in progress; fetches
the current command buffer; ends recording (outcome `end_cb_res`); looks
up the device queues (`queues_ok = false` models the unwrap panic);
submits and presents via Swapchain::submit_command_buffers with the
recorded image index; waits for device idle; and only on full success
clears is_frame_started and advances the frame-slot index modulo
MAX_FRAMES_IN_FLIGHT. -/
def Renderer.end_frame (r : Renderer)
    (end_cb_res : Except VkResult Unit)
    (queues_ok : Bool)
    (wait_res reset_res submit_res : Except VkResult Unit)
    (present_res : Except VkResult Bool)
    (idle_res : Except VkResult Unit) :
    Option (Renderer × Except GentooRenderError Unit) :=
  if ¬ r.is_frame_started then none
  else
    match r.get_current_command_buffer with
    | none => none
    | some _ =>
      match end_cb_res with
      | Except.error e => some (r, Except.error (GentooRenderError.vulkanError e))
      | Except.ok _ =>
        if ¬ queues_ok then none
        else
          match r.swapchain.submit_command_buffers r.current_image_index
              wait_res reset_res submit_res present_res with
          | none => none
          | some (sc2, subRes) =>
            match subRes with
            | Except.error e => some ({ r with swapchain := sc2 }, Except.error e)
            | Except.ok _ =>
              match idle_res with
              | Except.error e =>
                some ({ r with swapchain := sc2 },
                  Except.error (GentooRenderError.vulkanError e))
              | Except.ok _ =>
                some ({ r with
                    swapchain := sc2
                    is_frame_started := false
                    current_frame_index :=
                      (r.current_frame_index + 1) % MAX_FRAMES_IN_FLIGHT },
                  Except.ok ())

/-- A three-component vector.  The source stores f32 components that the
embedded operations only copy, never compute with, so components are
modelled as integers. -/
structure Vec3 where
  x : Int
  y : Int
  z : Int
deriving DecidableEq

/-- A four-component vector, modelled like Vec3. -/
structure Vec4 where
  x : Int
  y : Int
  z : Int
  w : Int
deriving DecidableEq

/-- The glam vec4 constructor. -/
def vec4 (x y z w : Int) : Vec4 := { x, y, z, w }

/-- TransformComponent from src/game_object.rs. -/
structure TransformComponent where
  translation : Vec3
  scale : Vec3
  rotation : Vec3
deriving DecidableEq

/-- PointLightComponent from src/game_object.rs. -/
structure PointLightComponent where
  light_intensity : Int
deriving DecidableEq

/-- GameObject from src/game_object.rs; the mesh reference is modelled as
an opaque handle. -/
structure GameObject where
  id : Nat
  model : Option Nat
  color : Vec3
  transform : TransformComponent
  point_light : Option PointLightComponent
deriving DecidableEq

/-- GameObject::new.  The process-wide `static mut CURRENT_ID: u8` is
passed and returned explicitly: the new object's id is the current
counter value and the counter is incremented with u8 wrap-around
(modulo 2 ^ 8).  Defaults: black color, identity-scale transform, no
point light. -/
def GameObject.new (current_id : Nat) (model : Option Nat) (color : Option Vec3)
    (transform : Option TransformComponent) : GameObject × Nat :=
  let color := match color with
    | some c => c
    | none => { x := 0, y := 0, z := 0 }
  let transform := match transform with
    | some t => t
    | none =>
      { translation := { x := 0, y := 0, z := 0 }
        scale := { x := 1, y := 1, z := 1 }
        rotation := { x := 0, y := 0, z := 0 } }
  ({ id := current_id, model, color, transform, point_light := none },
    (current_id + 1) % 2 ^ 8)

/-- GameObject::make_point_light: creates an object through
GameObject::new with the given color, a transform whose scale.x holds
the radius, then attaches a point-light component with the intensity. -/
def GameObject.make_point_light (current_id : Nat) (intensity : Int) (radius : Int)
    (color : Vec3) : GameObject × Nat :=
  let res := GameObject.new current_id none (some color)
    (some { translation := { x := 0, y := 0, z := 0 }
            scale := { x := radius, y := 0, z := 0 }
            rotation := { x := 0, y := 0, z := 0 } })
  ({ res.1 with point_light := some { light_intensity := intensity } }, res.2)

/-- The ids assigned by n successive GameObject::new calls starting from
counter value c, in creation order. -/
def id_stream : Nat → Nat → List Nat
  | 0, _ => []
  | n + 1, c =>
    let res := GameObject.new c none none none
    res.1.id :: id_stream n res.2

/-- PointLight entry of the global UBO (src/frame_info.rs). -/
structure PointLight where
  position : Vec4
  color : Vec4
deriving DecidableEq

/-- GlobalUbo from src/frame_info.rs.  The camera matrices are opaque to
the point-light update and are modelled as opaque handles; the
`[PointLight; MAX_LIGHTS]` array is a list whose length is MAX_LIGHTS. -/
structure GlobalUbo where
  projection : Int
  view : Int
  ambient_light_color : Vec4
  point_lights : List PointLight
  num_lights : Nat
deriving DecidableEq

/-- The PointLight entry PointLightSystem::update writes for an object
with a point-light component: position is the translation with w = 1,
color is the object color with w = light_intensity. -/
def lightEntry (obj : GameObject) (pl : PointLightComponent) : PointLight :=
  { position := vec4 obj.transform.translation.x obj.transform.translation.y
      obj.transform.translation.z 1
    color := vec4 obj.color.x obj.color.y obj.color.z pl.light_intensity }

/-- The loop body of PointLightSystem::update.  For every visited object
(light or not) the source first asserts light_index < MAX_LIGHTS (panic
as `none`); objects with a point-light component have their entry
written at index light_index, which then increments.  After the loop
num_lights is set to the final light_index. -/
def PointLightSystem.updateGo : List GameObject → Nat → GlobalUbo → Option GlobalUbo
  | [], light_index, ubo => some { ubo with num_lights := light_index }
  | obj :: rest, light_index, ubo =>
    if light_index < MAX_LIGHTS then
      match obj.point_light with
      | some pl =>
        PointLightSystem.updateGo rest (light_index + 1)
          { ubo with point_lights := ubo.point_lights.set light_index (lightEntry obj pl) }
      | none => PointLightSystem.updateGo rest light_index ubo
    else none

/-- PointLightSystem::update over the game-object mapping, modelled as
the list of objects in iteration order. -/
def PointLightSystem.update (game_objects : List GameObject) (ubo : GlobalUbo) :
    Option GlobalUbo :=
  PointLightSystem.updateGo game_objects 0 ubo

/-- The entries update writes, in iteration order: one per object with a
point-light component. -/
def lightsData (objs : List GameObject) : List PointLight :=
  objs.filterMap (fun o => o.point_light.map (lightEntry o))

/-- The number of objects with a point-light component. -/
def countLights (objs : List GameObject) : Nat := (lightsData objs).length

/-- The initial data PipelineCache::new hands the driver: the cache
file's bytes when the read succeeds, the empty blob when it fails
(missing or unreadable file). -/
def PipelineCache.initial_data (file : Option (List Nat)) : List Nat :=
  match file with
  | some data => data
  | none => []

/-- PipelineCache::new (src/vulkan/pipeline/cache.rs): reads
pipeline_cache.bin tolerating failure, then creates the driver cache
object seeded with the resulting bytes; only that external call
(outcome `create_cache`) can fail. -/
def PipelineCache.new (file : Option (List Nat))
    (create_cache : List Nat → Except VkResult Nat) :
    Except GentooRenderError Nat :=
  match create_cache (PipelineCache.initial_data file) with
  | Except.error e => Except.error (GentooRenderError.vulkanError e)
  | Except.ok cache => Except.ok cache

/-- The ash value vk::Format::B8G8R8A8_SRGB. -/
def B8G8R8A8_SRGB : Nat := 50

/-- The ash value vk::ColorSpaceKHR::SRGB_NONLINEAR. -/
def SRGB_NONLINEAR : Nat := 0

/-- A surface format/colorspace pair (ash::vk::SurfaceFormatKHR). -/
structure SurfaceFormatKHR where
  format : Nat
  color_space : Nat
deriving DecidableEq

/-- Swapchain::choose_surface_format: picks the first available format
equal to the preferred SRGB pair; otherwise falls back to indexing the
list at 0, which on an empty list is an out-of-bounds panic (`none`). -/
def Swapchain.choose_surface_format (available_formats : List SurfaceFormatKHR) :
    Option SurfaceFormatKHR :=
  match available_formats.find?
      (fun f => f.format == B8G8R8A8_SRGB && f.color_space == SRGB_NONLINEAR) with
  | some f => some f
  | none => available_formats.get? 0

/-- A concrete swapchain state used to instantiate theorems: three
swapchain images, two frame slots, freshly created (no image in flight,
frame slot 0). -/
def sc0 : Swapchain :=
  { swapchain_khr := some 11
    swapchain_image_format := 50
    swapchain_depth_format := 126
    swapchain_framebuffers := [21, 22, 23]
    image_available_semaphores := [31, 32]
    render_finished_semaphores := [41, 42]
    in_flight_fences := [51, 52]
    images_in_flight := [0, 0, 0]
    current_frame := 0 }

/-- A concrete renderer over sc0 with one command buffer per frame slot. -/
def r0 : Renderer := Renderer.mk_new sc0 [61, 62]

/-- The renderer r0 with a frame in progress. -/
def r1f : Renderer := { r0 with is_frame_started := true }

/-- The swapchain sc0 after one successful submit of image 0 from frame
slot 0: image 0 now owned by fence 51, frame slot advanced to 1. -/
def sc0_after : Swapchain :=
  { sc0 with images_in_flight := [51, 0, 0], current_frame := 1 }

/-- The renderer r1f after one fully successful end_frame. -/
def r0_after : Renderer :=
  { swapchain := sc0_after, command_buffers := [61, 62],
    current_image_index := 0, current_frame_index := 1, is_frame_started := false }

/-- The 3-entity scene of the end-to-end scenario: two mesh entities and
one light-only entity, created through the source constructors with the
id counter threaded from 0. -/
def scene3 : List GameObject :=
  let a := GameObject.new 0 (some 100) none none
  let b := GameObject.new a.2 (some 101) none none
  let c := GameObject.make_point_light b.2 2 1 { x := 1, y := 1, z := 1 }
  [a.1, b.1, c.1]

/-- A fresh global UBO: MAX_LIGHTS zeroed light slots, zero light count. -/
def ubo0 : GlobalUbo :=
  { projection := 0, view := 0, ambient_light_color := vec4 0 0 0 1
    point_lights := List.replicate MAX_LIGHTS
      { position := vec4 0 0 0 0, color := vec4 0 0 0 0 }
    num_lights := 0 }

/-- C5 counterexample: the claim includes get_image_index among the
operations that abort when no frame is in progress, but the source body
of Renderer::get_image_index has no assertion: called on a renderer with
is_frame_started = false it returns the stored index instead of
aborting. -/
theorem c5_counterexample :
    r0.is_frame_started = false
    ∧ r0.get_image_index = some 0
    ∧ r0.get_image_index ≠ none := by
  refine ⟨rfl, rfl, ?_⟩
  intro h
  simp [r0, Renderer.get_image_index, Renderer.mk_new] at h

/-- C5 (amended): every frame-scoped Renderer operation except
get_image_index (begin_swapchain_render_pass, end_swapchain_render_pass,
get_frame_index, get_current_command_buffer, end_frame) aborts on the
frame-not-started assertion when is_frame_started is false, while
get_image_index returns the stored image index without any check. -/
theorem c5_frame_scoped_asserts (r : Renderer) (h : r.is_frame_started = false) :
    r.get_frame_index = none
    ∧ r.get_current_command_buffer = none
    ∧ (∀ cb, r.begin_swapchain_render_pass cb = none)
    ∧ (∀ cb, r.end_swapchain_render_pass cb = none)
    ∧ (∀ ecb q wr rr sr pr ir, r.end_frame ecb q wr rr sr pr ir = none)
    ∧ r.get_image_index = some r.current_image_index := by
  refine ⟨?_, ?_, ?_, ?_, ?_, rfl⟩
  · simp [Renderer.get_frame_index, h]
  · simp [Renderer.get_current_command_buffer, h]
  · intro cb; simp [Renderer.begin_swapchain_render_pass, h]
  · intro cb; simp [Renderer.end_swapchain_render_pass, h]
  · intro ecb q wr rr sr pr ir; simp [Renderer.end_frame, h]

/-- C5 witness: the amended theorem applied to the concrete idle
renderer r0. -/
theorem c5_witness :
    r0.get_frame_index = none
    ∧ r0.end_frame (Except.ok ()) true (Except.ok ()) (Except.ok ()) (Except.ok ())
        (Except.ok true) (Except.ok ()) = none
    ∧ r0.get_image_index = some r0.current_image_index := by
  have h := c5_frame_scoped_asserts r0 rfl
  exact ⟨h.1, h.2.2.2.2.1 _ _ _ _ _ _ _, h.2.2.2.2.2⟩

/-- C6: recreate_swapchain with a zero-area extent returns Ok
immediately, issues no GPU call, leaves the whole renderer state (its
stored swapchain included) unchanged, and a repeated call in that state
is the same no-op. -/
theorem c6_recreate_zero_extent_noop (r : Renderer) (extent : Extent2D)
    (idle_res idle_res2 : Except VkResult Unit)
    (nsr nsr2 : Except GentooRenderError Swapchain)
    (h : extent.width = 0 ∨ extent.height = 0) :
    r.recreate_swapchain extent idle_res nsr = (r, [], Except.ok ())
    ∧ ((r.recreate_swapchain extent idle_res nsr).1).recreate_swapchain extent idle_res2 nsr2
        = (r, [], Except.ok ()) := by
  have h1 : r.recreate_swapchain extent idle_res nsr = (r, [], Except.ok ()) := by
    unfold Renderer.recreate_swapchain
    rw [if_pos h]
  refine ⟨h1, ?_⟩
  rw [h1]
  unfold Renderer.recreate_swapchain
  rw [if_pos h]

/-- C6 witness: the theorem applied to the concrete renderer r0 and a
minimised-window extent of width 0. -/
theorem c6_witness :
    r0.recreate_swapchain { width := 0, height := 600 } (Except.ok ())
        (Except.ok sc0) = (r0, [], Except.ok ()) := by
  exact (c6_recreate_zero_extent_noop r0 { width := 0, height := 600 }
    (Except.ok ()) (Except.ok ()) (Except.ok sc0) (Except.ok sc0) (Or.inl rfl)).1

/-- C8: PipelineCache::new never fails because of the cache file.  When
the driver-side cache creation succeeds on whatever bytes it is given,
construction succeeds for every file state; a missing or unreadable file
is replaced by the empty blob; and the bytes of a present (possibly
corrupt) file are forwarded verbatim to the driver, so only that
external call can fail. -/
theorem c8_pipeline_cache_tolerant (create_cache : List Nat → Except VkResult Nat)
    (h : ∀ data, ∃ c, create_cache data = Except.ok c) :
    (∀ file, ∃ c, PipelineCache.new file create_cache = Except.ok c)
    ∧ PipelineCache.initial_data none = []
    ∧ (∀ bytes, PipelineCache.new (some bytes) create_cache
        = Except.mapError GentooRenderError.vulkanError (create_cache bytes)) := by
  refine ⟨?_, rfl, ?_⟩
  · intro file
    obtain ⟨c, hc⟩ := h (PipelineCache.initial_data file)
    exact ⟨c, by simp [PipelineCache.new, hc]⟩
  · intro bytes
    simp only [PipelineCache.new, PipelineCache.initial_data]
    cases hc : create_cache bytes with
    | error e => rfl
    | ok c => rfl

/-- C8 witness: the theorem applied to a driver that always succeeds and
an arbitrary corrupt three-byte cache file. -/
theorem c8_witness :
    ∃ c, PipelineCache.new (some [255, 0, 17]) (fun _ => Except.ok 7)
      = Except.ok c := by
  exact (c8_pipeline_cache_tolerant (fun _ => Except.ok 7)
    (fun d => ⟨7, rfl⟩)).1 (some [255, 0, 17])

/-- C10: choose_surface_format on an empty format list panics
(out-of-bounds index into the empty fallback), and on any non-empty list
it returns a format, so a successful Swapchain::new presupposes at least
one available surface format. -/
theorem c10_choose_surface_format_empty_panics :
    Swapchain.choose_surface_format [] = none
    ∧ ∀ (fmts : List SurfaceFormatKHR), fmts ≠ [] →
        (Swapchain.choose_surface_format fmts).isSome = true := by
  refine ⟨rfl, ?_⟩
  intro fmts hne
  unfold Swapchain.choose_surface_format
  cases hf : fmts.find?
      (fun f => f.format == B8G8R8A8_SRGB && f.color_space == SRGB_NONLINEAR) with
  | some f => rfl
  | none =>
    cases fmts with
    | nil => exact absurd rfl hne
    | cons a t => rfl

/-- C10 witness: a device exposing one non-preferred format makes
choose_surface_format return it (the fallback path), per the theorem. -/
theorem c10_witness :
    (Swapchain.choose_surface_format [{ format := 44, color_space := 0 }]).isSome
      = true := by
  exact c10_choose_surface_format_empty_panics.2
    [{ format := 44, color_space := 0 }] (by simp)

/-- C1 counterexample: the claim says the fence wait uses wait-all
semantics, but the source passes `false` as the wait-all flag of
wait_for_fences (swapchain.rs line 142).  Evaluating acquire_next_image
on the concrete swapchain sc0 shows the issued wait carries
waitAll = false, and no wait with waitAll = true occurs in the trace. -/
theorem c1_counterexample :
    sc0.acquire_next_image (Except.ok ()) (Except.ok (0, false)) =
      some ([GpuOp.waitForFences [51] false U64_MAX,
             GpuOp.acquireNextImageKhr U64_MAX 31],
            Except.ok (Except.ok (0, false)))
    ∧ GpuOp.waitForFences [51] true U64_MAX ∉
        [GpuOp.waitForFences [51] false U64_MAX,
         GpuOp.acquireNextImageKhr U64_MAX 31] := by
  exact ⟨rfl, by decide⟩

/-- C1 (amended): every acquire_next_image call first blocks on the
in-flight fence of the current frame slot with an infinite (u64::MAX)
timeout — passing false, not true, for the wait-all flag, which for a
single fence blocks identically — and only when that wait succeeds does
it request the next image, signaling the current slot's image-available
semaphore; a failed wait issues no acquire at all.  This bounds the CPU
at MAX_FRAMES_IN_FLIGHT frames ahead of the GPU. -/
theorem c1_acquire_waits_before_acquiring (s : Swapchain)
    (wait_res : Except VkResult Unit) (acquire_res : Except VkResult (Nat × Bool))
    (ops : List GpuOp) (res : Except GentooRenderError (Except VkResult (Nat × Bool)))
    (h : s.acquire_next_image wait_res acquire_res = some (ops, res)) :
    ops.head? = some (GpuOp.waitForFences
        [s.in_flight_fences.getD s.current_frame 0] false U64_MAX)
    ∧ (wait_res = Except.ok () →
        ops = [GpuOp.waitForFences [s.in_flight_fences.getD s.current_frame 0] false U64_MAX,
               GpuOp.acquireNextImageKhr U64_MAX
                 (s.image_available_semaphores.getD s.current_frame 0)]
        ∧ res = Except.ok acquire_res)
    ∧ (∀ e, wait_res = Except.error e →
        ops = [GpuOp.waitForFences [s.in_flight_fences.getD s.current_frame 0] false U64_MAX]
        ∧ res = Except.error (GentooRenderError.vulkanError e)) := by
  cases wait_res with
  | error e =>
    simp only [Swapchain.acquire_next_image, Option.some.injEq, Prod.mk.injEq] at h
    refine ⟨?_, ?_, ?_⟩
    · rw [← h.1]; rfl
    · intro hw; cases hw
    · intro e2 he
      cases he
      exact ⟨h.1.symm, h.2.symm⟩
  | ok u =>
    cases u
    cases hk : s.swapchain_khr with
    | none => simp [Swapchain.acquire_next_image, hk] at h
    | some k =>
      simp only [Swapchain.acquire_next_image, hk, Option.some.injEq, Prod.mk.injEq] at h
      refine ⟨?_, ?_, ?_⟩
      · rw [← h.1]; rfl
      · intro _; exact ⟨h.1.symm, h.2.symm⟩
      · intro e2 he; cases he

/-- C1 witness: the amended theorem applied to the concrete swapchain
sc0 with a successful wait and a successful acquisition of image 1. -/
theorem c1_witness :
    [GpuOp.waitForFences [51] false U64_MAX,
     GpuOp.acquireNextImageKhr U64_MAX 31].head?
      = some (GpuOp.waitForFences [51] false U64_MAX) := by
  have h := c1_acquire_waits_before_acquiring sc0 (Except.ok ()) (Except.ok (1, false))
    [GpuOp.waitForFences [51] false U64_MAX, GpuOp.acquireNextImageKhr U64_MAX 31]
    (Except.ok (Except.ok (1, false))) rfl
  exact h.1

/-- Helper: how submit_after_wait changes current_frame.  It advances
modulo MAX_FRAMES_IN_FLIGHT exactly when reset and submit both succeed
(whatever the presentation outcome), and is unchanged when either
errors. -/
theorem submit_after_wait_frame (s : Swapchain) (image_index : Nat)
    (reset_res submit_res : Except VkResult Unit) (present_res : Except VkResult Bool)
    (s2 : Swapchain) (res : Except GentooRenderError Bool)
    (h : s.submit_after_wait image_index reset_res submit_res present_res
        = some (s2, res)) :
    (reset_res = Except.ok () → submit_res = Except.ok () →
      s2.current_frame = (s.current_frame + 1) % MAX_FRAMES_IN_FLIGHT)
    ∧ ((reset_res ≠ Except.ok () ∨ submit_res ≠ Except.ok ()) →
      s2.current_frame = s.current_frame) := by
  unfold Swapchain.submit_after_wait at h
  cases reset_res with
  | error e =>
    simp only [Option.some.injEq, Prod.mk.injEq] at h
    constructor
    · intro hr _; cases hr
    · intro _; rw [← h.1]; rfl
  | ok u =>
    cases u
    cases submit_res with
    | error e =>
      simp only [Option.some.injEq, Prod.mk.injEq] at h
      constructor
      · intro _ hs; cases hs
      · intro _; rw [← h.1]; rfl
    | ok v =>
      cases v
      cases hk : s.swapchain_khr with
      | none => rw [hk] at h; cases h
      | some k =>
        rw [hk] at h
        cases present_res with
        | error e =>
          simp only [Option.some.injEq, Prod.mk.injEq] at h
          constructor
          · intro _ _; rw [← h.1]; rfl
          · intro hd; rcases hd with hd | hd <;> exact absurd rfl hd
        | ok b =>
          simp only [Option.some.injEq, Prod.mk.injEq] at h
          constructor
          · intro _ _; rw [← h.1]; rfl
          · intro hd; rcases hd with hd | hd <;> exact absurd rfl hd

/-- C3 counterexample: the claim says current_frame advances regardless
of outcome, including when the queue submission errors; but on the
concrete swapchain sc0 a submission error makes submit_command_buffers
return before the advance, leaving current_frame at 0 instead of 1. -/
theorem c3_counterexample :
    (Option.map (fun p => p.1.current_frame)
      (sc0.submit_command_buffers 0 (Except.ok ()) (Except.ok ())
        (Except.error VkResult.errorDeviceLost) (Except.ok false))) = some 0
    ∧ (sc0.current_frame + 1) % MAX_FRAMES_IN_FLIGHT = 1 := by
  exact ⟨rfl, rfl⟩

/-- C3 (amended): submit_command_buffers advances current_frame by
exactly 1 modulo MAX_FRAMES_IN_FLIGHT whenever the per-image fence wait
(when taken), the fence reset and the queue submission all succeed —
regardless of the presentation outcome — but an error in any of those
three earlier steps returns before the advance and leaves current_frame
unchanged. -/
theorem c3_frame_slot_advance (s : Swapchain) (image_index : Nat)
    (wait_res reset_res submit_res : Except VkResult Unit)
    (present_res : Except VkResult Bool)
    (s2 : Swapchain) (res : Except GentooRenderError Bool)
    (h : s.submit_command_buffers image_index wait_res reset_res submit_res present_res
        = some (s2, res)) :
    ((s.images_in_flight.getD image_index 0 = 0 ∨ wait_res = Except.ok ()) →
      reset_res = Except.ok () → submit_res = Except.ok () →
      s2.current_frame = (s.current_frame + 1) % MAX_FRAMES_IN_FLIGHT)
    ∧ ((reset_res ≠ Except.ok () ∨ submit_res ≠ Except.ok ()
        ∨ (wait_res ≠ Except.ok () ∧ s.images_in_flight.getD image_index 0 ≠ 0)) →
      s2.current_frame = s.current_frame) := by
  unfold Swapchain.submit_command_buffers at h
  by_cases hf : s.images_in_flight.getD image_index 0 = 0
  · rw [if_neg (not_not_intro hf)] at h
    have hw := submit_after_wait_frame s image_index reset_res submit_res present_res s2 res h
    constructor
    · intro _ hr hs; exact hw.1 hr hs
    · intro hd
      rcases hd with hr | hs | ⟨_, hf2⟩
      · exact hw.2 (Or.inl hr)
      · exact hw.2 (Or.inr hs)
      · exact absurd hf hf2
  · rw [if_pos hf] at h
    cases wait_res with
    | error e =>
      simp only [Option.some.injEq, Prod.mk.injEq] at h
      constructor
      · intro hw _ _
        rcases hw with hw | hw
        · exact absurd hw hf
        · cases hw
      · intro _; rw [← h.1]
    | ok u =>
      cases u
      have hw := submit_after_wait_frame s image_index reset_res submit_res present_res s2 res h
      constructor
      · intro _ hr hs; exact hw.1 hr hs
      · intro hd
        rcases hd with hr | hs | ⟨hwne, _⟩
        · exact hw.2 (Or.inl hr)
        · exact hw.2 (Or.inr hs)
        · exact absurd rfl hwne

/-- Helper: recreate_swapchain never touches is_frame_started,
current_frame_index, current_image_index or command_buffers. -/
theorem recreate_swapchain_preserves (r : Renderer) (extent : Extent2D)
    (idle_res : Except VkResult Unit)
    (nsr : Except GentooRenderError Swapchain) :
    ((r.recreate_swapchain extent idle_res nsr).1).is_frame_started = r.is_frame_started
    ∧ ((r.recreate_swapchain extent idle_res nsr).1).current_frame_index
        = r.current_frame_index
    ∧ ((r.recreate_swapchain extent idle_res nsr).1).current_image_index
        = r.current_image_index
    ∧ ((r.recreate_swapchain extent idle_res nsr).1).command_buffers
        = r.command_buffers := by
  unfold Renderer.recreate_swapchain
  by_cases hz : extent.width = 0 ∨ extent.height = 0
  · rw [if_pos hz]; exact ⟨rfl, rfl, rfl, rfl⟩
  · rw [if_neg hz]
    cases idle_res with
    | error e => exact ⟨rfl, rfl, rfl, rfl⟩
    | ok u =>
      cases nsr with
      | error e => exact ⟨rfl, rfl, rfl, rfl⟩
      | ok newSc =>
        cases hc : Swapchain.compare_swap_formats
            { r.swapchain with swapchain_khr := none } newSc with
        | error e => simp [hc]
        | ok v => simp [hc]

/-- C2: begin_frame in the Idle state.  With is_frame_started false:
an out-of-date acquisition error triggers swapchain recreation and, when
that recreation returns Ok, begin_frame returns Ok(None) with the state
still Idle; any other acquisition error aborts (the source panics); a
successful acquisition transitions to FrameInProgress, records the
image index, and returns the current frame slot's command buffer. -/
theorem c2_begin_frame_cases (r : Renderer) (extent : Extent2D)
    (idle_res : Except VkResult Unit)
    (nsr : Except GentooRenderError Swapchain) (bcb : Except VkResult Unit)
    (h : r.is_frame_started = false) :
    ((r.recreate_swapchain extent idle_res nsr).2.2 = Except.ok () →
      r.swapchain.swapchain_khr ≠ none →
      r.begin_frame extent (Except.ok ()) (Except.error VkResult.errorOutOfDateKhr)
          idle_res nsr bcb
        = some ((r.recreate_swapchain extent idle_res nsr).1, Except.ok none)
      ∧ ((r.recreate_swapchain extent idle_res nsr).1).is_frame_started = false)
    ∧ (∀ e, e ≠ VkResult.errorOutOfDateKhr → r.swapchain.swapchain_khr ≠ none →
        r.begin_frame extent (Except.ok ()) (Except.error e) idle_res nsr bcb = none)
    ∧ (∀ idx subopt cb, r.swapchain.swapchain_khr ≠ none →
        r.command_buffers.get? r.current_frame_index = some cb →
        bcb = Except.ok () →
        r.begin_frame extent (Except.ok ()) (Except.ok (idx, subopt)) idle_res nsr bcb
          = some ({ r with is_frame_started := true, current_image_index := idx },
              Except.ok (some cb))) := by
  refine ⟨?_, ?_, ?_⟩
  · intro hrec hks
    cases hkk : r.swapchain.swapchain_khr with
    | none => exact absurd hkk hks
    | some k =>
      constructor
      · simp [Renderer.begin_frame, Swapchain.acquire_next_image, h, hkk, hrec]
      · rw [(recreate_swapchain_preserves r extent idle_res nsr).1]
        exact h
  · intro e he hks
    cases hkk : r.swapchain.swapchain_khr with
    | none => exact absurd hkk hks
    | some k =>
      cases e with
      | errorOutOfDateKhr => exact absurd rfl he
      | errorDeviceLost =>
        simp [Renderer.begin_frame, Swapchain.acquire_next_image, h, hkk]
      | errorOutOfHostMemory =>
        simp [Renderer.begin_frame, Swapchain.acquire_next_image, h, hkk]
  · intro idx subopt cb hks hcb hbcb
    cases hkk : r.swapchain.swapchain_khr with
    | none => exact absurd hkk hks
    | some k =>
      subst hbcb
      simp only [List.get?_eq_getElem?] at hcb
      simp [Renderer.begin_frame, Swapchain.acquire_next_image,
        Renderer.get_current_command_buffer, h, hkk, hcb]

/-- C2 witness: the theorem applied to the concrete idle renderer r0,
once per acquisition outcome: out-of-date (skipped frame, still Idle),
device-lost (abort), success (frame started, command buffer 61 of slot
0 returned). -/
theorem c2_witness :
    (r0.begin_frame { width := 800, height := 600 } (Except.ok ())
        (Except.error VkResult.errorOutOfDateKhr) (Except.ok ()) (Except.ok sc0)
        (Except.ok ())
      = some ((r0.recreate_swapchain { width := 800, height := 600 } (Except.ok ())
          (Except.ok sc0)).1, Except.ok none))
    ∧ r0.begin_frame { width := 800, height := 600 } (Except.ok ())
        (Except.error VkResult.errorDeviceLost) (Except.ok ()) (Except.ok sc0)
        (Except.ok ()) = none
    ∧ r0.begin_frame { width := 800, height := 600 } (Except.ok ())
        (Except.ok (2, false)) (Except.ok ()) (Except.ok sc0) (Except.ok ())
      = some ({ r0 with is_frame_started := true, current_image_index := 2 },
          Except.ok (some 61)) := by
  have h := c2_begin_frame_cases r0 { width := 800, height := 600 } (Except.ok ())
    (Except.ok sc0) (Except.ok ()) rfl
  refine ⟨(h.1 (by rfl) (by decide)).1, ?_, ?_⟩
  · exact h.2.1 VkResult.errorDeviceLost (by decide) (by decide)
  · exact h.2.2 2 false 61 (by decide) (by rfl) rfl

/-- Helper: with a frame in progress, get_current_command_buffer is the
command-buffer lookup at the current frame-slot index. -/
theorem get_current_cb_of_started (r : Renderer) (h : r.is_frame_started = true) :
    r.get_current_command_buffer = r.command_buffers.get? r.current_frame_index := by
  simp [Renderer.get_current_command_buffer, h]

/-- C4: the renderer's frame-slot index stays in
[0, MAX_FRAMES_IN_FLIGHT).  From any state satisfying the bound:
Renderer::new starts at 0; every end_frame that returns keeps the bound,
and when it completes with Ok it advances the index by exactly 1 modulo
MAX_FRAKES-free formula (r.current_frame_index + 1) % MAX_FRAMES_IN_FLIGHT,
which does not depend on the acquired image index; begin_frame and
recreate_swapchain never change the index. -/
theorem c4_frame_index_invariant (r : Renderer)
    (h : r.current_frame_index < MAX_FRAMES_IN_FLIGHT) :
    (∀ sc cbs, (Renderer.mk_new sc cbs).current_frame_index = 0)
    ∧ (∀ ecb q wr rr sr pr ir r2 res,
        r.end_frame ecb q wr rr sr pr ir = some (r2, res) →
        r2.current_frame_index < MAX_FRAMES_IN_FLIGHT
        ∧ (res = Except.ok () →
            r2.current_frame_index = (r.current_frame_index + 1) % MAX_FRAMES_IN_FLIGHT))
    ∧ (∀ extent wr ar ir nsr bcb r2 res,
        r.begin_frame extent wr ar ir nsr bcb = some (r2, res) →
        r2.current_frame_index = r.current_frame_index)
    ∧ (∀ extent ir nsr,
        ((r.recreate_swapchain extent ir nsr).1).current_frame_index
          = r.current_frame_index) := by
  refine ⟨fun sc cbs => rfl, ?_, ?_, ?_⟩
  · intro ecb q wr rr sr pr ir r2 res h2
    unfold Renderer.end_frame at h2
    repeat' split at h2
    all_goals try exact Option.noConfusion h2
    all_goals (injection h2 with hpair; injection hpair with hx hy; subst hx; subst hy)
    all_goals first
      | exact ⟨h, fun hres => by cases hres⟩
      | exact ⟨Nat.mod_lt _ (by decide), fun _ => rfl⟩
  · intro extent wr ar ir nsr bcb r2 res h2
    unfold Renderer.begin_frame Swapchain.acquire_next_image at h2
    repeat' split at h2
    all_goals try exact Option.noConfusion h2
    all_goals (injection h2 with hpair; injection hpair with hx hy; subst hx; subst hy)
    all_goals first
      | rfl
      | exact (recreate_swapchain_preserves r extent ir nsr).2.1
  · intro extent ir nsr
    exact (recreate_swapchain_preserves r extent ir nsr).2.1

/-- C4 witness: the theorem applied to the concrete in-progress renderer
r1f (frame slot 0): one fully successful end_frame lands in r0_after
with frame slot (0 + 1) % 2 = 1, inside the bound, and a fresh renderer
starts at slot 0. -/
theorem c4_witness :
    r0_after.current_frame_index
      = (r1f.current_frame_index + 1) % MAX_FRAMES_IN_FLIGHT
    ∧ r0_after.current_frame_index < MAX_FRAMES_IN_FLIGHT
    ∧ (Renderer.mk_new sc0 [61, 62]).current_frame_index = 0 := by
  have h := c4_frame_index_invariant r1f (by decide)
  have h2 := h.2.1 (Except.ok ()) true (Except.ok ()) (Except.ok ()) (Except.ok ())
    (Except.ok true) (Except.ok ()) r0_after (Except.ok ()) (by rfl)
  exact ⟨h2.2 rfl, h2.1, h.1 sc0 [61, 62]⟩

/-- Helper: setting the element just past a prefix w writes into the
head position of the suffix. -/
theorem set_at_prefix_length {α : Type} (w rest : List α) (e : α) :
    (w ++ rest).set w.length e = w ++ rest.set 0 e := by
  induction w with
  | nil => simp
  | cons a t ih => simp [List.set, ih]

/-- Helper: lightsData distributes over cons according to the presence
of a point-light component. -/
theorem lightsData_cons (o : GameObject) (t : List GameObject) :
    lightsData (o :: t) = match o.point_light with
      | some pl => lightEntry o pl :: lightsData t
      | none => lightsData t := by
  cases hp : o.point_light with
  | none => simp [lightsData, List.filterMap_cons, hp]
  | some pl => simp [lightsData, List.filterMap_cons, hp]

/-- Helper: the update loop, started at write cursor w.length over a UBO
whose light array is w ++ rest, completes without tripping the
light-count assertion and produces lightsData objs in the slots after w,
keeping the tail of rest beyond the written region. -/
theorem updateGo_spec (objs : List GameObject) :
    ∀ (w rest : List PointLight) (ubo : GlobalUbo),
    ubo.point_lights = w ++ rest →
    w.length + countLights objs < MAX_LIGHTS →
    MAX_LIGHTS ≤ w.length + rest.length →
    PointLightSystem.updateGo objs w.length ubo =
      some { ubo with
        point_lights := w ++ lightsData objs ++ rest.drop (countLights objs)
        num_lights := w.length + countLights objs } := by
  induction objs with
  | nil =>
    intro w rest ubo hpl hcount hlen
    simp [PointLightSystem.updateGo, countLights, lightsData, hpl]
  | cons o t ih =>
    intro w rest ubo hpl hcount hlen
    cases hp : o.point_light with
    | none =>
      have hcc : countLights (o :: t) = countLights t := by
        simp [countLights, lightsData_cons, hp]
      have hlt : w.length < MAX_LIGHTS := by omega
      unfold PointLightSystem.updateGo
      rw [if_pos hlt]
      simp only [hp]
      rw [ih w rest ubo hpl (by omega) hlen]
      rw [lightsData_cons]
      simp only [hp, hcc]
    | some pl =>
      have hcc : countLights (o :: t) = 1 + countLights t := by
        simp [countLights, lightsData_cons, hp, Nat.add_comm]
      have hlt : w.length < MAX_LIGHTS := by omega
      obtain ⟨p, rest2, rfl⟩ : ∃ p rest2, rest = p :: rest2 := by
        cases rest with
        | nil => exfalso; simp at hlen; omega
        | cons p rest2 => exact ⟨p, rest2, rfl⟩
      have hrl : (p :: rest2).length = rest2.length + 1 := by simp
      unfold PointLightSystem.updateGo
      rw [if_pos hlt]
      simp only [hp]
      have hset : ubo.point_lights.set w.length (lightEntry o pl)
          = (w ++ [lightEntry o pl]) ++ rest2 := by
        rw [hpl, set_at_prefix_length]
        simp
      have h2 := ih (w ++ [lightEntry o pl]) rest2
        { ubo with point_lights := ubo.point_lights.set w.length (lightEntry o pl) }
        (by simpa using hset)
        (by simp only [List.length_append, List.length_cons, List.length_nil]; omega)
        (by simp only [List.length_append, List.length_cons, List.length_nil]
            rw [hrl] at hlen; omega)
      have hw1 : (w ++ [lightEntry o pl]).length = w.length + 1 := by simp
      rw [hw1] at h2
      rw [h2]
      rw [lightsData_cons]
      simp [hp, hcc, List.append_assoc, Nat.add_comm, Nat.add_assoc, Nat.add_left_comm]

/-- C7: when the scene holds fewer than MAX_LIGHTS point-light entities,
PointLightSystem::update succeeds, sets num_lights to exactly the number
of point-light entities, writes their position/color entries into
exactly that many leading slots of the UBO light array (in iteration
order), and leaves every remaining slot untouched. -/
theorem c7_point_light_update (objs : List GameObject) (ubo : GlobalUbo)
    (h1 : countLights objs < MAX_LIGHTS)
    (h2 : ubo.point_lights.length = MAX_LIGHTS) :
    PointLightSystem.update objs ubo =
      some { ubo with
        point_lights := lightsData objs ++ ubo.point_lights.drop (countLights objs)
        num_lights := countLights objs } := by
  have h := updateGo_spec objs [] ubo.point_lights ubo (by simp)
    (by simpa using h1) (by omega)
  simpa [PointLightSystem.update] using h

/-- C7 witness: the theorem applied to the concrete 3-entity scene (two
mesh entities, one light-only entity) and a fresh UBO: exactly one light
slot is populated, with the light's translation/color/intensity, and
num_lights is 1. -/
theorem c7_witness :
    countLights scene3 < MAX_LIGHTS
    ∧ Option.map (fun u => u.num_lights) (PointLightSystem.update scene3 ubo0) = some 1
    ∧ Option.map (fun u => u.point_lights.take 1) (PointLightSystem.update scene3 ubo0)
      = some [{ position := vec4 0 0 0 1, color := vec4 1 1 1 2 }] := by
  refine ⟨by decide, ?_, ?_⟩
  · rw [c7_point_light_update scene3 ubo0 (by decide) (by decide)]
    rfl
  · rw [c7_point_light_update scene3 ubo0 (by decide) (by decide)]
    rfl

/-- C3 witness: the amended theorem applied to the concrete swapchain
sc0 (frame slot 0, image 0 never used before) with every submission
stage succeeding: the slot advances to (0 + 1) % 2 = 1. -/
theorem c3_witness :
    sc0_after.current_frame = (sc0.current_frame + 1) % MAX_FRAMES_IN_FLIGHT := by
  have h := c3_frame_slot_advance sc0 0 (Except.ok ()) (Except.ok ()) (Except.ok ())
    (Except.ok false) sc0_after (Except.ok false) (by rfl)
  exact h.1 (Or.inl rfl) rfl rfl

/-- Helper: the k-th id assigned by a run of GameObject::new calls whose
counter starts at c < 256 is (c + k) % 256. -/
theorem id_stream_get (n : Nat) :
    ∀ (c k : Nat), c < 2 ^ 8 → k < n →
      (id_stream n c).get? k = some ((c + k) % 2 ^ 8) := by
  induction n with
  | zero => intro c k hc hk; exact absurd hk (Nat.not_lt_zero k)
  | succ m ih =>
    intro c k hc hk
    cases k with
    | zero =>
      simp [id_stream, GameObject.new]
      omega
    | succ k2 =>
      have ih2 := ih ((c + 1) % 2 ^ 8) k2 (Nat.mod_lt _ (by norm_num)) (by omega)
      simp only [id_stream, GameObject.new, List.get?_cons_succ]
      rw [ih2, Nat.mod_add_mod]
      congr 1
      omega

/-- C9 counterexample: the id counter is a u8.  Running 257 creations
from a fresh counter, the 256th object (index 255) gets id 255 and the
257th (index 256) gets id 0 — the wrapped counter reuses id 0, and the
257th id is not greater than its predecessor, contradicting the claimed
strict monotonicity with no wrap-around. -/
theorem c9_counterexample :
    (id_stream 257 0).get? 255 = some 255
    ∧ (id_stream 257 0).get? 256 = some 0
    ∧ ¬ (255 : Nat) < 0 := by
  have h255 := id_stream_get 257 0 255 (by norm_num) (by norm_num)
  have h256 := id_stream_get 257 0 256 (by norm_num) (by norm_num)
  rw [Nat.zero_add, Nat.mod_eq_of_lt (by norm_num)] at h255
  rw [Nat.zero_add, show (256 : Nat) % 2 ^ 8 = 0 from by norm_num] at h256
  exact ⟨h255, h256, by norm_num⟩

/-- C9 (amended): identifiers assigned by successive GameObject::new
calls are strictly monotonically increasing over the first 256 creations
(each new id is greater than every previous one); from the 257th
creation on, the 8-bit counter wraps and ids repeat from 0. -/
theorem c9_ids_monotone_until_wrap (n i j : Nat) (hij : i < j) (hjn : j < n)
    (hj : j < 2 ^ 8) :
    (id_stream n 0).get? i = some i
    ∧ (id_stream n 0).get? j = some j
    ∧ i < j := by
  have hi := id_stream_get n 0 i (by norm_num) (by omega)
  have hjj := id_stream_get n 0 j (by norm_num) (by omega)
  rw [Nat.zero_add, Nat.mod_eq_of_lt (by omega)] at hi
  rw [Nat.zero_add, Nat.mod_eq_of_lt hj] at hjj
  exact ⟨hi, hjj, hij⟩

/-- C9 witness: the amended theorem at creations 5 and 17 of a 300-long
run: both ids are assigned, equal their creation ranks, and increase. -/
theorem c9_witness :
    (id_stream 300 0).get? 5 = some 5
    ∧ (id_stream 300 0).get? 17 = some 17
    ∧ 5 < 17 := by
  exact c9_ids_monotone_until_wrap 300 5 17 (by norm_num) (by norm_num) (by norm_num)

end Gentoo
